import Mathlib

/-!
Shallow embedding of the lmdb-rs wrapper layer (src/core.rs, src/transaction.rs,
src/database.rs, src/cursor.rs, src/environment.rs).

The storage engine (liblmdb) is an external collaborator of the repository; its
primitive operations (cursor navigation over a sorted multi-map, point get/put/
delete, transaction begin/commit, database-by-name open, environment close) are
modelled here as pure functions over an explicit store, following the interface
description in the specification (section 6) and the standard LMDB semantics the
wrapper code relies on.  Keys and duplicate values are modelled as naturals; a
store is a list of (key, sorted duplicate values) pairs in ascending key order.

All wrapper functions are translated statement by statement from the Rust
source; each definition names the source function it embeds.
-/

set_option maxRecDepth 4096

/-- Transaction states, from `enum TransactionState` in src/transaction.rs. -/
inductive TransactionState where
  | Normal
  | Released
  | Invalid
deriving DecidableEq, Repr

/-- Structured content of the message built by the `assert_state_eq!` macro in
src/core.rs: `format!("{} requires {:?}, is in {:?}", stringify!($log), c, e)`
where `c` is the current state and `e` the expected one (the two states are
interpolated in that order).  Both states are carried in the rendered string;
we keep them as fields. -/
structure StateMsg where
  op : String
  cur : TransactionState
  exp : TransactionState
deriving DecidableEq, Repr

/-- Engine status codes used by the wrapper (`ffi` constants of liblmdb). -/
def MDB_SUCCESS : Int := 0

def MDB_KEYEXIST : Int := -30799

def MDB_NOTFOUND : Int := -30798

def MDB_PAGE_FULL : Int := -30786

def MDB_CORRUPTED : Int := -30796

def MDB_PANIC : Int := -30795

def MDB_TXN_FULL : Int := -30788

def MDB_CURSOR_FULL : Int := -30787

/-- Modelled from the spec: `EINVAL`, the code the engine returns for a cursor
read with no current position (used by `MDB_GET_CURRENT` on an unset cursor). -/
def EINVAL : Int := 22

/-- Rendered message for an engine status code; models `utils::error_msg`,
which asks the engine (`mdb_strerror`) for a printable description. -/
def error_msg (code : Int) : String :=
  "mdb error " ++ toString code

/-- Error taxonomy, from `enum MdbError` in src/core.rs. -/
inductive MdbError where
  | NotFound
  | KeyExists
  | TxnFull
  | CursorFull
  | PageFull
  | Corrupted
  | Panic
  | InvalidPath
  | StateError (msg : StateMsg)
  | CacheError
  | Other (code : Int) (msg : String)
deriving DecidableEq, Repr

/-- Mapping of raw engine status codes into the taxonomy, translated from
`MdbError::new_with_code` in src/core.rs. -/
def MdbError.new_with_code (code : Int) : MdbError :=
  if code = MDB_NOTFOUND then .NotFound
  else if code = MDB_KEYEXIST then .KeyExists
  else if code = MDB_TXN_FULL then .TxnFull
  else if code = MDB_CURSOR_FULL then .CursorFull
  else if code = MDB_PAGE_FULL then .PageFull
  else if code = MDB_CORRUPTED then .Corrupted
  else if code = MDB_PANIC then .Panic
  else .Other code (error_msg code)

deriving instance DecidableEq for Except

/-- Result type `MdbResult<T>` from src/core.rs. -/
abbrev MdbResult (α : Type) := Except MdbError α

/-- The `try_mdb!` / `lift_mdb!` macros from src/core.rs: a zero code is
success, anything else is routed through `MdbError::new_with_code`. -/
def lift_mdb (code : Int) : MdbResult Unit :=
  if code = MDB_SUCCESS then .ok () else .error (MdbError.new_with_code code)

/-- Flag bit `MDB_RDONLY` of liblmdb, tested by
`NativeTransaction::is_readonly`. -/
def MDB_RDONLY : Nat := 131072

/-- Model of `NativeTransaction` (src/transaction.rs): the engine handle is
dropped, the flag word and the state are kept. -/
structure NativeTransaction where
  flags : Nat
  state : TransactionState
deriving DecidableEq, Repr

/-- Translated from `NativeTransaction::is_readonly`:
`(self.flags as u32 & ffi::MDB_RDONLY) == ffi::MDB_RDONLY`. -/
def NativeTransaction.is_readonly (t : NativeTransaction) : Bool :=
  Nat.land t.flags MDB_RDONLY = MDB_RDONLY

/-- Translated from `NativeTransaction::commit`.  The engine call
`mdb_txn_commit` is external; its status code is passed in as `engineCode`.
The source asserts `Normal`, advances the state, and only then checks the
engine code with `try_mdb!`. -/
def NativeTransaction.commit (t : NativeTransaction) (engineCode : Int) :
    MdbResult Unit × NativeTransaction :=
  if t.state = TransactionState.Normal then
    let t' := { t with
      state := if t.is_readonly then TransactionState.Released
               else TransactionState.Invalid }
    (lift_mdb engineCode, t')
  else
    (.error (.StateError ⟨"txn", t.state, TransactionState.Normal⟩), t)

/-- Translated from `NativeTransaction::abort`: a no-op (with a diagnostic)
unless the state is `Normal`. -/
def NativeTransaction.abort (t : NativeTransaction) : NativeTransaction :=
  if t.state ≠ TransactionState.Normal then t
  else
    { t with
      state := if t.is_readonly then TransactionState.Released
               else TransactionState.Invalid }

/-- Translated from `NativeTransaction::reset`: a no-op unless `Normal`;
the engine handle is kept. -/
def NativeTransaction.reset (t : NativeTransaction) : NativeTransaction :=
  if t.state ≠ TransactionState.Normal then t
  else { t with state := TransactionState.Released }

/-- Translated from `NativeTransaction::renew`: asserts `Released`, issues the
engine renew call (status `engineCode`), and moves to `Normal` only on engine
success. -/
def NativeTransaction.renew (t : NativeTransaction) (engineCode : Int) :
    MdbResult Unit × NativeTransaction :=
  if t.state = TransactionState.Released then
    match lift_mdb engineCode with
    | .ok _ => (.ok (), { t with state := TransactionState.Normal })
    | .error e => (.error e, t)
  else
    (.error (.StateError ⟨"txn", t.state, TransactionState.Released⟩), t)

/-- Translated from `NativeTransaction::silent_abort` (called from `Drop`):
aborts the engine transaction when still `Normal`, logs nothing outward, and
returns no error to any caller. -/
def NativeTransaction.silent_abort (t : NativeTransaction) : NativeTransaction :=
  if t.state = TransactionState.Normal then
    { t with state := TransactionState.Invalid }
  else t

example :
    (NativeTransaction.commit ⟨MDB_RDONLY, .Normal⟩ 0).2.state =
      TransactionState.Released := by decide

example :
    (NativeTransaction.commit ⟨0, .Normal⟩ 0).2.state =
      TransactionState.Invalid := by decide

example :
    (NativeTransaction.commit ⟨0, .Normal⟩ MDB_PAGE_FULL).1 =
      .error .PageFull := by decide

/-- Engine-level store: keys in ascending order, each carrying its ascending
list of duplicate values (a single-element list when duplicates are off). -/
abbrev Store := List (Nat × List Nat)

/-- Key stored at key index `ki`. -/
def Store.keyAt (S : Store) (ki : Nat) : Option Nat :=
  (S.get? ki).map (·.1)

/-- Duplicate values stored at key index `ki`. -/
def Store.dupsAt (S : Store) (ki : Nat) : List Nat :=
  ((S.get? ki).map (·.2)).getD []

/-- The (key, value) pair at position `(ki, vi)`. -/
def Store.entryAt (S : Store) (ki vi : Nat) : Option (Nat × Nat) :=
  match S.get? ki with
  | some (k, vs) => ((vs.get? vi).map (fun v => (k, v)))
  | none => none

/-- Index of the first list element satisfying `p` (a structurally recursive
`findIdx?`, kept local for direct equational reasoning). -/
def listFindIdx {α : Type} (p : α → Bool) : List α → Option Nat
  | [] => none
  | a :: l => if p a then some 0 else (listFindIdx p l).map (· + 1)

/-- Index of the first key greater than or equal to `k` (the `MDB_SET_RANGE`
search). -/
def Store.firstGeIdx (S : Store) (k : Nat) : Option Nat :=
  listFindIdx (fun e => k ≤ e.1) S

/-- Index of the key equal to `k`, if stored. -/
def Store.exactIdx (S : Store) (k : Nat) : Option Nat :=
  listFindIdx (fun e => e.1 = k) S

/-- Engine cursor position: fresh (uninitialized), at item `(ki, vi)`, or past
the last entry (where a failed `MDB_SET_RANGE` leaves the cursor). -/
inductive CurPos where
  | unset
  | item (ki vi : Nat)
  | eof
deriving DecidableEq, Repr

/-- Provenance of the bytes a cursor buffer points at: engine-owned mapped
memory, or caller-supplied memory handed in by a positioning call. -/
inductive Prov where
  | engine
  | user
deriving DecidableEq, Repr

/-- A cursor buffer (`MDB_val`): the value it denotes plus the provenance of
its backing memory. -/
structure Val where
  prov : Prov
  v : Nat
deriving DecidableEq, Repr

/-- Cursor navigation operations (`ffi::MDB_cursor_op`) used by the wrapper. -/
inductive MDB_cursor_op where
  | FIRST
  | FIRST_DUP
  | GET_BOTH
  | GET_BOTH_RANGE
  | GET_CURRENT
  | LAST
  | LAST_DUP
  | NEXT
  | NEXT_DUP
  | NEXT_NODUP
  | PREV
  | PREV_DUP
  | PREV_NODUP
  | SET
  | SET_KEY
  | SET_RANGE
deriving DecidableEq, Repr

/-- Engine key comparison (`mdb_cmp`, default byte-lexicographic comparator)
on modelled keys. -/
def mdb_cmp (a b : Nat) : Int :=
  if a < b then -1 else if b < a then 1 else 0

/-- Engine duplicate-value comparison (`mdb_dcmp`). -/
def mdb_dcmp (a b : Nat) : Int :=
  mdb_cmp a b

/-- Result of one engine `mdb_cursor_get` call: status code, new cursor
position, and the key/data buffers as left by the engine. -/
structure CGetOut where
  rc : Int
  pos : CurPos
  keyOut : Val
  dataOut : Val
deriving DecidableEq, Repr

/-- Modelled from the spec: the engine primitive `mdb_cursor_get` ("cursor get
with a navigation-operation enum", section 6), over the sorted multi-map
store.  On success the engine rewrites the buffers with engine-owned memory,
except that `MDB_SET` does not write the key back and `MDB_GET_BOTH_RANGE`
may leave the data referencing caller memory (the two cases the wrapper's
validity flags exist for).  A failed `MDB_SET_RANGE`, or stepping past the
last key, leaves the cursor past the end, from where `MDB_PREV`-class
operations reach the last entry. -/
def mdb_cursor_get (S : Store) (pos : CurPos) (keyIn dataIn : Val)
    (op : MDB_cursor_op) : CGetOut :=
  let notfound : CGetOut := ⟨MDB_NOTFOUND, pos, keyIn, dataIn⟩
  let einval : CGetOut := ⟨EINVAL, pos, keyIn, dataIn⟩
  let succeedAt : Nat → Nat → CGetOut := fun ki vi =>
    match S.entryAt ki vi with
    | some kv => ⟨MDB_SUCCESS, .item ki vi, ⟨.engine, kv.1⟩, ⟨.engine, kv.2⟩⟩
    | none => einval
  let lastAll : CGetOut :=
    if S.length = 0 then notfound
    else succeedAt (S.length - 1) ((S.dupsAt (S.length - 1)).length - 1)
  match op with
  | .FIRST => if S.length = 0 then notfound else succeedAt 0 0
  | .LAST => lastAll
  | .SET_RANGE =>
      match S.firstGeIdx keyIn.v with
      | some ki => succeedAt ki 0
      | none => ⟨MDB_NOTFOUND, .eof, keyIn, dataIn⟩
  | .SET_KEY =>
      match S.exactIdx keyIn.v with
      | some ki => succeedAt ki 0
      | none => notfound
  | .SET =>
      match S.exactIdx keyIn.v with
      | some ki =>
          match S.entryAt ki 0 with
          | some kv => ⟨MDB_SUCCESS, .item ki 0, keyIn, ⟨.engine, kv.2⟩⟩
          | none => einval
      | none => notfound
  | .GET_BOTH =>
      match S.exactIdx keyIn.v with
      | some ki =>
          match listFindIdx (fun v => v = dataIn.v) (S.dupsAt ki) with
          | some vi => ⟨MDB_SUCCESS, .item ki vi, keyIn, dataIn⟩
          | none => notfound
      | none => notfound
  | .GET_BOTH_RANGE =>
      match S.exactIdx keyIn.v with
      | some ki =>
          match listFindIdx (fun v => dataIn.v ≤ v) (S.dupsAt ki) with
          | some vi =>
              match S.entryAt ki vi with
              | some kv => ⟨MDB_SUCCESS, .item ki vi, keyIn, ⟨.user, kv.2⟩⟩
              | none => einval
          | none => notfound
      | none => notfound
  | .NEXT_NODUP =>
      match pos with
      | .unset => if S.length = 0 then notfound else succeedAt 0 0
      | .item ki _ =>
          if ki + 1 < S.length then succeedAt (ki + 1) 0
          else ⟨MDB_NOTFOUND, .eof, keyIn, dataIn⟩
      | .eof => notfound
  | .PREV_NODUP =>
      match pos with
      | .unset => lastAll
      | .item ki _ =>
          if ki = 0 then notfound
          else succeedAt (ki - 1) ((S.dupsAt (ki - 1)).length - 1)
      | .eof => lastAll
  | .NEXT =>
      match pos with
      | .unset => if S.length = 0 then notfound else succeedAt 0 0
      | .item ki vi =>
          if vi + 1 < (S.dupsAt ki).length then succeedAt ki (vi + 1)
          else if ki + 1 < S.length then succeedAt (ki + 1) 0
          else ⟨MDB_NOTFOUND, .eof, keyIn, dataIn⟩
      | .eof => notfound
  | .PREV =>
      match pos with
      | .unset => lastAll
      | .item ki vi =>
          if vi ≠ 0 then succeedAt ki (vi - 1)
          else if ki = 0 then notfound
          else succeedAt (ki - 1) ((S.dupsAt (ki - 1)).length - 1)
      | .eof => lastAll
  | .NEXT_DUP =>
      match pos with
      | .item ki vi =>
          if vi + 1 < (S.dupsAt ki).length then succeedAt ki (vi + 1)
          else notfound
      | _ => einval
  | .PREV_DUP =>
      match pos with
      | .item ki vi => if vi = 0 then notfound else succeedAt ki (vi - 1)
      | _ => einval
  | .FIRST_DUP =>
      match pos with
      | .item ki _ => succeedAt ki 0
      | _ => einval
  | .LAST_DUP =>
      match pos with
      | .item ki _ => succeedAt ki ((S.dupsAt ki).length - 1)
      | _ => einval
  | .GET_CURRENT =>
      match pos with
      | .item ki vi => succeedAt ki vi
      | _ => einval

/-- Model of `struct Cursor` (src/cursor.rs): position in the engine, the two
`MDB_val` buffers, and the two validity flags. -/
structure Cursor where
  pos : CurPos
  key_val : Val
  data_val : Val
  valid_key : Bool
  valid_value : Bool
deriving DecidableEq, Repr

/-- Translated from `Cursor::new`: zeroed buffers, both flags false.  The
engine `mdb_cursor_open` call only allocates the handle. -/
def Cursor.fresh : Cursor :=
  ⟨.unset, ⟨.user, 0⟩, ⟨.user, 0⟩, false, false⟩

/-- Translated from `Cursor::navigate`: reset both validity flags, issue the
engine call, and on success set the flags according to the operation
(`MDB_SET` leaves the key invalid, `MDB_GET_BOTH_RANGE` the value). -/
def Cursor.navigate (S : Store) (c : Cursor) (op : MDB_cursor_op) :
    MdbResult Unit × Cursor :=
  let c := { c with valid_key := false, valid_value := false }
  let out := mdb_cursor_get S c.pos c.key_val c.data_val op
  if out.rc = MDB_SUCCESS then
    (.ok (), { c with
      pos := out.pos, key_val := out.keyOut, data_val := out.dataOut,
      valid_key := op != .SET,
      valid_value := op != .GET_BOTH_RANGE })
  else
    (.error (MdbError.new_with_code out.rc), { c with pos := out.pos })

/-- Translated from `Cursor::move_to`: load the caller's key (and optional
value) into the buffers, then navigate. -/
def Cursor.move_to (S : Store) (c : Cursor) (key : Nat) (value : Option Nat)
    (op : MDB_cursor_op) : MdbResult Unit × Cursor :=
  let c := { c with
    key_val := ⟨.user, key⟩,
    data_val := match value with
      | some v => (⟨.user, v⟩ : Val)
      | none => (⟨.user, 0⟩ : Val) }
  c.navigate S op

/-- Translated from `Cursor::_move_to_prev`: seek with `MDB_SET_RANGE`; if
that reports not-found or the located key compares greater than the original
one, step back with `MDB_PREV_NODUP`; if the seek landed exactly, stop. -/
def Cursor.move_to_prev_impl (S : Store) (c : Cursor) (key : Nat) :
    MdbResult Unit × Cursor :=
  let original : Nat := key
  let c := { c with key_val := ⟨.user, key⟩, data_val := ⟨.user, 0⟩,
                    valid_key := false, valid_value := false }
  let out := mdb_cursor_get S c.pos c.key_val c.data_val .SET_RANGE
  let c := if out.rc = MDB_SUCCESS then
      { c with pos := out.pos, key_val := out.keyOut, data_val := out.dataOut }
    else { c with pos := out.pos }
  if out.rc = MDB_NOTFOUND ∨ out.rc = MDB_SUCCESS then
    if mdb_cmp original c.key_val.v < 0 ∨ out.rc = MDB_NOTFOUND then
      let out2 := mdb_cursor_get S c.pos c.key_val c.data_val .PREV_NODUP
      if out2.rc = MDB_SUCCESS then
        (.ok (), { c with pos := out2.pos, key_val := out2.keyOut,
                          data_val := out2.dataOut,
                          valid_key := true, valid_value := true })
      else
        (.error (MdbError.new_with_code out2.rc), { c with pos := out2.pos })
    else if out.rc = MDB_SUCCESS then
      (.ok (), { c with valid_key := true, valid_value := true })
    else
      (.error (MdbError.new_with_code out.rc), c)
  else
    (.error (MdbError.new_with_code out.rc), c)

/-- Translated from `Cursor::move_to_first`. -/
def Cursor.move_to_first (S : Store) (c : Cursor) : MdbResult Unit × Cursor :=
  c.navigate S .FIRST

/-- Translated from `Cursor::move_to_last`. -/
def Cursor.move_to_last (S : Store) (c : Cursor) : MdbResult Unit × Cursor :=
  c.navigate S .LAST

/-- Translated from `Cursor::move_to_key`. -/
def Cursor.move_to_key (S : Store) (c : Cursor) (key : Nat) :
    MdbResult Unit × Cursor :=
  c.move_to S key none .SET_KEY

/-- Translated from `Cursor::move_to_gte_key`. -/
def Cursor.move_to_gte_key (S : Store) (c : Cursor) (key : Nat) :
    MdbResult Unit × Cursor :=
  c.move_to S key none .SET_RANGE

/-- Translated from `Cursor::move_to_lte_key`. -/
def Cursor.move_to_lte_key (S : Store) (c : Cursor) (key : Nat) :
    MdbResult Unit × Cursor :=
  c.move_to_prev_impl S key

/-- Translated from `Cursor::move_to_item`. -/
def Cursor.move_to_item (S : Store) (c : Cursor) (key value : Nat) :
    MdbResult Unit × Cursor :=
  c.move_to S key (some value) .GET_BOTH

/-- Translated from `Cursor::move_to_gte_item`: a `MDB_GET_BOTH_RANGE`
navigation, after which `valid_key` is additionally cleared. -/
def Cursor.move_to_gte_item (S : Store) (c : Cursor) (key value : Nat) :
    MdbResult Unit × Cursor :=
  match c.move_to S key (some value) .GET_BOTH_RANGE with
  | (.ok _, c') => (.ok (), { c' with valid_key := false })
  | (.error e, c') => (.error e, c')

/-- Translated from `Cursor::move_to_next_key` (`MDB_NEXT_NODUP`). -/
def Cursor.move_to_next_key (S : Store) (c : Cursor) : MdbResult Unit × Cursor :=
  c.navigate S .NEXT_NODUP

/-- Translated from `Cursor::move_to_next_item` (`MDB_NEXT_DUP`). -/
def Cursor.move_to_next_item (S : Store) (c : Cursor) : MdbResult Unit × Cursor :=
  c.navigate S .NEXT_DUP

/-- Translated from `Cursor::move_to_prev_key` (`MDB_PREV_NODUP`). -/
def Cursor.move_to_prev_key (S : Store) (c : Cursor) : MdbResult Unit × Cursor :=
  c.navigate S .PREV_NODUP

/-- Translated from `Cursor::move_to_prev_item` (`MDB_PREV_DUP`). -/
def Cursor.move_to_prev_item (S : Store) (c : Cursor) : MdbResult Unit × Cursor :=
  c.navigate S .PREV_DUP

/-- Translated from `Cursor::move_to_first_item` (`MDB_FIRST_DUP`). -/
def Cursor.move_to_first_item (S : Store) (c : Cursor) : MdbResult Unit × Cursor :=
  c.navigate S .FIRST_DUP

/-- Translated from `Cursor::move_to_last_item` (`MDB_LAST_DUP`). -/
def Cursor.move_to_last_item (S : Store) (c : Cursor) : MdbResult Unit × Cursor :=
  c.navigate S .LAST_DUP

/-- Translated from `Cursor::ensure_key_valid`: when the key flag is down,
re-fetch the key from the engine with `MDB_GET_CURRENT`. -/
def Cursor.ensure_key_valid (S : Store) (c : Cursor) : MdbResult Unit × Cursor :=
  if !c.valid_key then
    let out := mdb_cursor_get S c.pos c.key_val c.data_val .GET_CURRENT
    if out.rc = MDB_SUCCESS then
      (.ok (), { c with key_val := out.keyOut, valid_key := true })
    else
      (.error (MdbError.new_with_code out.rc), c)
  else
    (.ok (), c)

/-- Translated from `Cursor::get_plain`: ensure the key is valid, then, if the
value flag is down, re-fetch the data with `MDB_GET_CURRENT`; finally return
both buffers. -/
def Cursor.get_plain (S : Store) (c : Cursor) :
    MdbResult (Val × Val) × Cursor :=
  match c.ensure_key_valid S with
  | (.error e, c') => (.error e, c')
  | (.ok _, c') =>
    if !c'.valid_value && c'.valid_key then
      let out := mdb_cursor_get S c'.pos c'.key_val c'.data_val .GET_CURRENT
      if out.rc = MDB_SUCCESS then
        let c'' := { c' with data_val := out.dataOut, valid_value := true }
        (.ok (c''.key_val, c''.data_val), c'')
      else
        (.error (MdbError.new_with_code out.rc), c')
    else
      (.ok (c'.key_val, c'.data_val), c')

/-- Translated from `Cursor::get`: current key/value pair. -/
def Cursor.get (S : Store) (c : Cursor) : MdbResult (Nat × Nat) × Cursor :=
  match c.get_plain S with
  | (.ok kv, c') => (.ok (kv.1.v, kv.2.v), c')
  | (.error e, c') => (.error e, c')

/-- Translated from `Cursor::get_value`. -/
def Cursor.get_value (S : Store) (c : Cursor) : MdbResult Nat × Cursor :=
  match c.get_plain S with
  | (.ok kv, c') => (.ok kv.2.v, c')
  | (.error e, c') => (.error e, c')

/-- Translated from `Cursor::get_key`. -/
def Cursor.get_key (S : Store) (c : Cursor) : MdbResult Nat × Cursor :=
  match c.get_plain S with
  | (.ok kv, c') => (.ok kv.1.v, c')
  | (.error e, c') => (.error e, c')

/-- The shared `Ok(_) | Err(NotFound)` continuation of
`Cursor::move_to_lte_item`: read the landed value; if the target compares
smaller, step back one duplicate. -/
def Cursor.lte_item_fallback (S : Store) (c : Cursor) (value : Nat) :
    MdbResult Unit × Cursor :=
  let old_value := value
  match c.get_value S with
  | (.ok val, c1) =>
      if mdb_dcmp old_value val < 0 then c1.move_to_prev_item S
      else (.ok (), c1)
  | (.error .NotFound, c1) => c1.move_to_prev_item S
  | (.error e, c1) => (.error e, c1)

/-- Translated from `Cursor::move_to_lte_item`: a gte-item search stepped back
one duplicate when the found value overshoots the target. -/
def Cursor.move_to_lte_item (S : Store) (c : Cursor) (key value : Nat) :
    MdbResult Unit × Cursor :=
  match c.move_to_gte_item S key value with
  | (.ok _, c1) => c1.lte_item_fallback S value
  | (.error .NotFound, c1) => c1.lte_item_fallback S value
  | (.error e, c1) => (.error e, c1)

/-- Translated from `Cursor::cmp_key`: compare the (re-fetched) current key
with another key through `mdb_cmp`. -/
def Cursor.cmp_key (S : Store) (c : Cursor) (other : Nat) :
    MdbResult Ordering × Cursor :=
  match c.get_plain S with
  | (.ok kv, c') =>
      let cmp := mdb_cmp kv.1.v other
      (.ok (if cmp < 0 then .lt else if 0 < cmp then .gt else .eq), c')
  | (.error e, c') => (.error e, c')

/-- The `IsLess` helper of src/cursor.rs on `Ordering`. -/
def Ordering.is_less (o : Ordering) (or_equal : Bool) : Bool :=
  match o, or_equal with
  | .lt, _ => true
  | .eq, true => true
  | _, _ => false

/-- The `IsLess` instance of src/cursor.rs for `MdbResult<Ordering>`: an error
counts as not-less. -/
def MdbResult.is_less (r : MdbResult Ordering) (or_equal : Bool) : Bool :=
  match r with
  | .ok o => o.is_less or_equal
  | .error _ => false

/-- Rust's `Result::is_ok`, used by the iterator policies. -/
def MdbResult.is_ok {α : Type} (r : MdbResult α) : Bool :=
  match r with
  | .ok _ => true
  | .error _ => false

/-- The `IterateCursor` trait of src/cursor.rs: a policy object with an
initialization step and an advancement step, both reporting whether an
in-range element is available. -/
class IterateCursor (I : Type) where
  init_cursor : I → Store → Cursor → Bool × Cursor
  move_to_next : I → Store → Cursor → Bool × Cursor

/-- The `CursorIterator` wrapper of src/cursor.rs. -/
structure CursorIterator (I : Type) where
  inner : I
  has_data : Bool
  cursor : Cursor
deriving DecidableEq, Repr

/-- Translated from `CursorIterator::wrap`: run the policy's initialization
once and remember whether a first element exists. -/
def CursorIterator.wrap {I : Type} [IterateCursor I] (cursor : Cursor)
    (S : Store) (inner : I) : CursorIterator I :=
  let (has_data, cursor) := IterateCursor.init_cursor inner S cursor
  ⟨inner, has_data, cursor⟩

/-- Translated from `Iterator::next` for `CursorIterator`: when no data is
flagged, stop; otherwise read the current pair with `get_plain` — an error
from that read yields `None` — then advance the policy. -/
def CursorIterator.next {I : Type} [IterateCursor I] (S : Store)
    (it : CursorIterator I) : Option (Nat × Nat) × CursorIterator I :=
  if !it.has_data then
    (none, it)
  else
    match it.cursor.get_plain S with
    | (.error _, c') => (none, { it with cursor := c' })
    | (.ok kv, c') =>
        let (hd, c'') := IterateCursor.move_to_next it.inner S c'
        (some (kv.1.v, kv.2.v), { it with has_data := hd, cursor := c'' })

/-- Materialize a lazy cursor iterator into the list of pairs it yields
(`fuel` bounds the number of `next` calls, as a `collect` would). -/
def CursorIterator.run {I : Type} [IterateCursor I] (S : Store) (fuel : Nat)
    (it : CursorIterator I) : List (Nat × Nat) :=
  match fuel with
  | 0 => []
  | fuel + 1 =>
      match it.next S with
      | (none, _) => []
      | (some kv, it') => kv :: it'.run S fuel

/-- The `CursorKeyRangeIter` policy of src/cursor.rs (`[start, end)` or
`[start, end]` depending on the inclusive flag). -/
structure CursorKeyRangeIter where
  start_key : Nat
  end_key : Nat
  end_inclusive : Bool
deriving DecidableEq, Repr

/-- Translated from `impl IterateCursor for CursorKeyRangeIter`. -/
instance instIterKeyRange : IterateCursor CursorKeyRangeIter where
  init_cursor i S c :=
    let (r, c) := c.move_to_gte_key S i.start_key
    if r.is_ok then
      let (rc, c) := c.cmp_key S i.end_key
      (rc.is_less i.end_inclusive, c)
    else (false, c)
  move_to_next i S c :=
    let (r, c) := c.move_to_next_key S
    if r.is_ok then
      let (rc, c) := c.cmp_key S i.end_key
      (rc.is_less i.end_inclusive, c)
    else (false, c)

/-- The `CursorFromKeyIter` policy of src/cursor.rs (inclusive lower bound,
open upper end). -/
structure CursorFromKeyIter where
  start_key : Nat
deriving DecidableEq, Repr

/-- Translated from `impl IterateCursor for CursorFromKeyIter`. -/
instance instIterFromKey : IterateCursor CursorFromKeyIter where
  init_cursor i S c :=
    let (r, c) := c.move_to_gte_key S i.start_key
    (r.is_ok, c)
  move_to_next _ S c :=
    let (r, c) := c.move_to_next_key S
    (r.is_ok, c)

/-- The `CursorToKeyIter` policy of src/cursor.rs (exclusive upper bound). -/
structure CursorToKeyIter where
  end_key : Nat
deriving DecidableEq, Repr

/-- Translated from `impl IterateCursor for CursorToKeyIter`. -/
instance instIterToKey : IterateCursor CursorToKeyIter where
  init_cursor i S c :=
    let (r, c) := c.move_to_first S
    if r.is_ok then
      let (rc, c) := c.cmp_key S i.end_key
      (rc.is_less false, c)
    else (false, c)
  move_to_next i S c :=
    let (r, c) := c.move_to_next_key S
    if r.is_ok then
      let (rc, c) := c.cmp_key S i.end_key
      (rc.is_less false, c)
    else (false, c)

/-- The full-scan `CursorIter` policy of src/cursor.rs. -/
inductive CursorIter where
  | mk
deriving DecidableEq, Repr

/-- Translated from `impl IterateCursor for CursorIter`. -/
instance instIterAll : IterateCursor CursorIter where
  init_cursor _ S c :=
    let (r, c) := c.move_to_first S
    (r.is_ok, c)
  move_to_next _ S c :=
    let (r, c) := c.move_to_next_key S
    (r.is_ok, c)

/-- The `CursorItemIter` policy of src/cursor.rs (all duplicates of one key). -/
structure CursorItemIter where
  key : Nat
deriving DecidableEq, Repr

/-- Translated from `impl IterateCursor for CursorItemIter`. -/
instance instIterItem : IterateCursor CursorItemIter where
  init_cursor i S c :=
    let (r, c) := c.move_to_key S i.key
    (r.is_ok, c)
  move_to_next _ S c :=
    let (r, c) := c.move_to_next_item S
    (r.is_ok, c)

/-- Translated from `Database::keyrange_to`: iterator through keys strictly
below `end_key`. -/
def Database.keyrange_to (S : Store) (end_key : Nat) :
    CursorIterator CursorToKeyIter :=
  CursorIterator.wrap Cursor.fresh S ⟨end_key⟩

/-- Translated from `Database::keyrange_from`: iterator through keys greater
than or equal to `start_key`. -/
def Database.keyrange_from (S : Store) (start_key : Nat) :
    CursorIterator CursorFromKeyIter :=
  CursorIterator.wrap Cursor.fresh S ⟨start_key⟩

/-- Translated from `Database::keyrange`: iterator with inclusive end bound
(`CursorKeyRangeIter` with `end_inclusive = true`). -/
def Database.keyrange (S : Store) (start_key end_key : Nat) :
    CursorIterator CursorKeyRangeIter :=
  CursorIterator.wrap Cursor.fresh S ⟨start_key, end_key, true⟩

/-- Translated from `Database::keyrange_from_to`: iterator with exclusive end
bound (`CursorKeyRangeIter` with `end_inclusive = false`). -/
def Database.keyrange_from_to (S : Store) (start_key end_key : Nat) :
    CursorIterator CursorKeyRangeIter :=
  CursorIterator.wrap Cursor.fresh S ⟨start_key, end_key, false⟩

/-- Modelled from the spec: engine point read `mdb_get` — returns the first
value for the key, the one the duplicate comparator sorts foremost
(section 4.2), `MDB_NOTFOUND` when the key is absent. -/
def storeGet (S : Store) (k : Nat) : MdbResult Nat :=
  match S.find? (fun e => e.1 = k) with
  | some e =>
      match e.2.head? with
      | some v => .ok v
      | none => .error .NotFound
  | none => .error .NotFound

/-- Sorted insertion of a duplicate value; a value already present is kept
once (set semantics of a duplicate-sorted database). -/
def insertDup (v : Nat) : List Nat → List Nat
  | [] => [v]
  | w :: ws =>
      if v < w then v :: w :: ws
      else if v = w then w :: ws
      else w :: insertDup v ws

/-- Modelled from the spec: engine write `mdb_put` with no flags — an upsert
for non-duplicate databases, the addition of one duplicate item for
duplicate-allowed ones (section 4.2). -/
def storePut (dupAllowed : Bool) (S : Store) (k v : Nat) : Store :=
  match S with
  | [] => [(k, [v])]
  | (k', vs) :: rest =>
      if k < k' then (k, [v]) :: (k', vs) :: rest
      else if k = k' then
        (if dupAllowed then (k', insertDup v vs) else (k', [v])) :: rest
      else (k', vs) :: storePut dupAllowed rest k v

/-- Modelled from the spec: `mdb_put` with `MDB_NOOVERWRITE` — fails
`MDB_KEYEXIST` when the key is present, even with duplicates allowed
(section 4.2, insert). -/
def storeInsert (dupAllowed : Bool) (S : Store) (k v : Nat) :
    MdbResult Unit × Store :=
  if (S.find? (fun e => e.1 = k)).isSome then (.error .KeyExists, S)
  else (.ok (), storePut dupAllowed S k v)

/-- Modelled from the spec: `mdb_put` with `MDB_APPEND` — requires the key to
compare at least every existing key, else `MDB_KEYEXIST` (section 4.2). -/
def storeAppend (dupAllowed : Bool) (S : Store) (k v : Nat) :
    MdbResult Unit × Store :=
  if S.all (fun e => e.1 ≤ k) then (.ok (), storePut dupAllowed S k v)
  else (.error .KeyExists, S)

/-- Modelled from the spec: `mdb_put` with `MDB_APPENDDUP` — additionally
requires the new duplicate to compare at least every value stored under the
key (section 4.2). -/
def storeAppendDup (S : Store) (k v : Nat) : MdbResult Unit × Store :=
  if S.all (fun e => e.1 ≤ k) &&
     (((S.find? (fun e => e.1 = k)).map (·.2)).getD []).all (fun w => w ≤ v) then
    (.ok (), storePut true S k v)
  else (.error .KeyExists, S)

/-- Modelled from the spec: `mdb_del` with null data — removes every value
for the key, `MDB_NOTFOUND` when the key is absent. -/
def storeDel (S : Store) (k : Nat) : MdbResult Unit × Store :=
  if (S.find? (fun e => e.1 = k)).isSome then
    (.ok (), S.filter (fun e => e.1 ≠ k))
  else (.error .NotFound, S)

/-- Modelled from the spec: `mdb_del` with a value — removes exactly the
(key, value) pair, `MDB_NOTFOUND` when it is not stored. -/
def storeDelItem (S : Store) (k v : Nat) : MdbResult Unit × Store :=
  match S.find? (fun e => e.1 = k) with
  | some e =>
      if e.2.contains v then
        (.ok (), S.filterMap (fun p =>
          if p.1 = k then
            (let vs' := p.2.filter (fun w => w ≠ v)
             if vs'.isEmpty then none else some (p.1, vs'))
          else some p))
      else (.error .NotFound, S)
  | none => (.error .NotFound, S)

/-- A transaction together with the engine state reachable through it: the
wrapper's flag word and state (as in `NativeTransaction`), the engine
transaction's view of the one database under consideration (with its
duplicate setting), and a running count of engine invocations made through
the handle — the observable for "the engine is not invoked". -/
structure Txn where
  flags : Nat
  state : TransactionState
  dupAllowed : Bool
  view : Store
  calls : Nat
deriving DecidableEq, Repr

/-- Translated from `NativeTransaction::is_readonly` for the `Txn` model. -/
def Txn.is_readonly (t : Txn) : Bool :=
  Nat.land t.flags MDB_RDONLY = MDB_RDONLY

/-- The `StateError` built by `assert_state_eq!(txn, cur, Normal)` inside the
`Database` operations. -/
def assertStateErr (cur : TransactionState) : MdbError :=
  .StateError ⟨"txn", cur, TransactionState.Normal⟩

/-- Translated from `Database::get` (src/database.rs): assert `Normal`, then
delegate to the engine `mdb_get`. -/
def Database.get (t : Txn) (k : Nat) : MdbResult Nat × Txn :=
  if t.state = TransactionState.Normal then
    (storeGet t.view k, { t with calls := t.calls + 1 })
  else (.error (assertStateErr t.state), t)

/-- Translated from `Database::set`: assert `Normal`, then `mdb_put` with no
flags. -/
def Database.set (t : Txn) (k v : Nat) : MdbResult Unit × Txn :=
  if t.state = TransactionState.Normal then
    (.ok (), { t with view := storePut t.dupAllowed t.view k v,
                      calls := t.calls + 1 })
  else (.error (assertStateErr t.state), t)

/-- Translated from `Database::insert`: assert `Normal`, then `mdb_put` with
`MDB_NOOVERWRITE`. -/
def Database.insert (t : Txn) (k v : Nat) : MdbResult Unit × Txn :=
  if t.state = TransactionState.Normal then
    let (r, S') := storeInsert t.dupAllowed t.view k v
    (r, { t with view := S', calls := t.calls + 1 })
  else (.error (assertStateErr t.state), t)

/-- Translated from `Database::append`: assert `Normal`, then `mdb_put` with
`MDB_APPEND`. -/
def Database.append (t : Txn) (k v : Nat) : MdbResult Unit × Txn :=
  if t.state = TransactionState.Normal then
    let (r, S') := storeAppend t.dupAllowed t.view k v
    (r, { t with view := S', calls := t.calls + 1 })
  else (.error (assertStateErr t.state), t)

/-- Translated from `Database::append_duplicate`: assert `Normal`, then
`mdb_put` with `MDB_APPENDDUP`. -/
def Database.append_duplicate (t : Txn) (k v : Nat) : MdbResult Unit × Txn :=
  if t.state = TransactionState.Normal then
    let (r, S') := storeAppendDup t.view k v
    (r, { t with view := S', calls := t.calls + 1 })
  else (.error (assertStateErr t.state), t)

/-- Translated from `Database::del`: assert `Normal`, then `mdb_del` with
null data. -/
def Database.del (t : Txn) (k : Nat) : MdbResult Unit × Txn :=
  if t.state = TransactionState.Normal then
    let (r, S') := storeDel t.view k
    (r, { t with view := S', calls := t.calls + 1 })
  else (.error (assertStateErr t.state), t)

/-- Translated from `Database::del_item`: assert `Normal`, then `mdb_del`
with the value. -/
def Database.del_item (t : Txn) (k v : Nat) : MdbResult Unit × Txn :=
  if t.state = TransactionState.Normal then
    let (r, S') := storeDelItem t.view k v
    (r, { t with view := S', calls := t.calls + 1 })
  else (.error (assertStateErr t.state), t)

/-- Translated from `Database::clear`: assert `Normal`, then `mdb_drop` with
`del = 0` (empty the database, keep the handle). -/
def Database.clear (t : Txn) : MdbResult Unit × Txn :=
  if t.state = TransactionState.Normal then
    (.ok (), { t with view := [], calls := t.calls + 1 })
  else (.error (assertStateErr t.state), t)

/-- Translated from `Database::del_db`: assert `Normal`, then `mdb_drop`
with `del = 1` (the cache removal is on the `Environment` model below). -/
def Database.del_db (t : Txn) : MdbResult Unit × Txn :=
  if t.state = TransactionState.Normal then
    (.ok (), { t with view := [], calls := t.calls + 1 })
  else (.error (assertStateErr t.state), t)

/-- Translated from `Database::new_cursor` (src/database.rs), which delegates
straight to `Cursor::new` — the engine's `mdb_cursor_open` — with no state
assertion (`NativeTransaction::new_cursor` in src/transaction.rs likewise
performs none). -/
def Database.new_cursor (t : Txn) : MdbResult Cursor × Txn :=
  (.ok Cursor.fresh, { t with calls := t.calls + 1 })

/-- Translated from `Environment::new_transaction` composed with the modelled
engine `mdb_txn_begin`: a fresh read-write transaction viewing the committed
data (the source's read-only-environment refusal is not exercised here). -/
def Environment.new_transaction (dupAllowed : Bool) (committed : Store) : Txn :=
  ⟨0, TransactionState.Normal, dupAllowed, committed, 0⟩

/-- Translated from `Environment::get_reader` composed with the modelled
engine: a fresh read-only transaction viewing the committed data. -/
def Environment.get_reader (dupAllowed : Bool) (committed : Store) : Txn :=
  ⟨MDB_RDONLY, TransactionState.Normal, dupAllowed, committed, 0⟩

/-- Translated from `NativeTransaction::commit` for the `Txn` model, composed
with the modelled engine `mdb_txn_commit`, which publishes a read-write
transaction's view as the new committed data (section 6). -/
def Txn.commit (t : Txn) (committed : Store) :
    MdbResult Unit × Txn × Store :=
  if t.state = TransactionState.Normal then
    let t' := { t with
      state := if t.is_readonly then TransactionState.Released
               else TransactionState.Invalid }
    (.ok (), t', if t.is_readonly then committed else t.view)
  else
    (.error (.StateError ⟨"txn", t.state, TransactionState.Normal⟩), t, committed)

/-- Model of `EnvHandle` (src/environment.rs): the raw engine environment
pointer, null modelled as 0. -/
structure EnvHandle where
  ptr : Nat
deriving DecidableEq, Repr

/-- The `is_null` test of the raw pointer. -/
def EnvHandle.is_null (h : EnvHandle) : Bool :=
  h.ptr = 0

/-- Translated from `impl Drop for EnvHandle`: the list of `mdb_env_close`
calls the destructor issues.  The source body is
`if self.0.is_null() { ffi::mdb_env_close(self.0); }`. -/
def EnvHandle.drop_closes (h : EnvHandle) : List Nat :=
  if h.is_null then [h.ptr] else []

/-- Modelled from the spec: the engine registry behind `mdb_dbi_open`
("open database-by-name", section 6) — a stable small-integer handle per
name, plus a count of open calls for observing engine invocations. -/
structure EngineEnv where
  dbis : List (String × Nat)
  next_dbi : Nat
  open_calls : Nat
deriving DecidableEq, Repr

/-- Modelled from the spec: one engine `mdb_dbi_open` call. -/
def EngineEnv.mdb_dbi_open (e : EngineEnv) (name : String) : Nat × EngineEnv :=
  match e.dbis.find? (fun p => p.1 = name) with
  | some p => (p.2, { e with open_calls := e.open_calls + 1 })
  | none =>
      (e.next_dbi, { e with dbis := e.dbis ++ [(name, e.next_dbi)],
                            next_dbi := e.next_dbi + 1,
                            open_calls := e.open_calls + 1 })

/-- Model of the `Environment` fields `_open_db` touches: the mutex-guarded
handle cache `db_cache` and the engine environment behind it. -/
structure Environment where
  db_cache : List (String × Nat)
  eng : EngineEnv
deriving DecidableEq, Repr

/-- Translated from `Environment::_open_db`: acquire the cache lock
(`lockOk = false` models a poisoned lock, reported as `CacheError`); under
the lock, return any cached handle without touching the engine; otherwise
begin a transaction, call the engine's `mdb_dbi_open`, commit the transaction
(engine status `commitCode`), and insert into the cache only after the
commit succeeded. -/
def Environment._open_db (env : Environment) (name : String)
    (lockOk : Bool) (commitCode : Int) : MdbResult Nat × Environment :=
  if !lockOk then (.error .CacheError, env)
  else
    match env.db_cache.find? (fun p => p.1 = name) with
    | some p => (.ok p.2, env)
    | none =>
        let (db, eng') := env.eng.mdb_dbi_open name
        let txn : NativeTransaction := ⟨0, TransactionState.Normal⟩
        match (txn.commit commitCode).1 with
        | .error e => (.error e, { env with eng := eng' })
        | .ok _ =>
            (.ok db, { env with eng := eng',
                                db_cache := env.db_cache ++ [(name, db)] })

/-- Translated from `Environment::drop_db_from_cache`: remove the (unique)
cache entry carrying the given handle. -/
def Environment.drop_db_from_cache (env : Environment) (handle : Nat) :
    Environment :=
  match env.db_cache.find? (fun p => p.2 = handle) with
  | some p => { env with db_cache := env.db_cache.filter (fun q => q.1 ≠ p.1) }
  | none => env

/-- C1: `commit` requires state `Normal` and advances a read-write
transaction to `Invalid` and a read-only one to `Released`; the engine
commit's outcome is returned unchanged while the state is still advanced
(no repair); a read-only transaction in `Released` renews back to `Normal`;
and `Invalid` is terminal: no operation leaves it or succeeds from it. -/
theorem commit_state_machine (t : NativeTransaction) (e : Int) :
    (t.state = TransactionState.Normal →
       (t.commit e).2.state =
         (if t.is_readonly then TransactionState.Released
          else TransactionState.Invalid) ∧
       (t.commit e).1 = lift_mdb e) ∧
    (t.state ≠ TransactionState.Normal →
       (t.commit e).1 =
         .error (.StateError ⟨"txn", t.state, TransactionState.Normal⟩) ∧
       (t.commit e).2 = t) ∧
    (t.state = TransactionState.Released →
       (t.renew 0).1 = .ok () ∧ (t.renew 0).2.state = TransactionState.Normal) ∧
    (t.state = TransactionState.Invalid →
       (t.commit e).2.state = TransactionState.Invalid ∧
       (t.renew e).2.state = TransactionState.Invalid ∧
       t.abort.state = TransactionState.Invalid ∧
       t.reset.state = TransactionState.Invalid ∧
       (t.commit e).1.is_ok = false ∧
       (t.renew e).1.is_ok = false) := by
  refine ⟨?_, ?_, ?_, ?_⟩ <;> intro h <;>
    simp [NativeTransaction.commit, NativeTransaction.renew,
          NativeTransaction.abort, NativeTransaction.reset, lift_mdb,
          MDB_SUCCESS, MdbResult.is_ok, h]

/-- Witness for `commit_state_machine` at concrete transactions: a committed
read-only transaction lands in `Released`, a `Released` one renews to
`Normal`, and an `Invalid` read-write one stays `Invalid`. -/
theorem commit_state_machine_witness :
    ((NativeTransaction.commit ⟨MDB_RDONLY, TransactionState.Normal⟩ 0).2.state =
       (if (⟨MDB_RDONLY, TransactionState.Normal⟩ : NativeTransaction).is_readonly
        then TransactionState.Released else TransactionState.Invalid)) ∧
    ((NativeTransaction.renew ⟨MDB_RDONLY, TransactionState.Released⟩ 0).2.state =
       TransactionState.Normal) ∧
    ((NativeTransaction.commit ⟨0, TransactionState.Invalid⟩ 7).2.state =
       TransactionState.Invalid) := by
  refine ⟨((commit_state_machine ⟨MDB_RDONLY, .Normal⟩ 0).1 (by decide)).1, ?_, ?_⟩
  · exact ((commit_state_machine ⟨MDB_RDONLY, .Released⟩ 0).2.2.1 (by decide)).2
  · exact ((commit_state_machine ⟨0, .Invalid⟩ 7).2.2.2 (by decide)).1

/-- C2 counterexample: with the owning transaction in state `Invalid`,
`Database::new_cursor` does not fail with a `StateError` — it succeeds and
still invokes the engine (`mdb_cursor_open`), refuting the claim's universal
statement at the `new_cursor` operation. -/
theorem new_cursor_skips_state_check :
    (Database.new_cursor ⟨0, TransactionState.Invalid, false, [], 0⟩).1 =
      .ok Cursor.fresh ∧
    (Database.new_cursor ⟨0, TransactionState.Invalid, false, [], 0⟩).2.calls = 1 := by
  decide

/-- C2 (amended): each of get, set, insert, append, append_duplicate, del,
del_item, del_db and clear under a non-`Normal` transaction fails with the
`StateError` carrying the actual and expected states, does not invoke the
engine, and leaves the stored data unchanged; `new_cursor`, by contrast,
performs no state check and invokes the engine unconditionally. -/
theorem state_gating (t : Txn) (k v : Nat)
    (h : t.state ≠ TransactionState.Normal) :
    ((Database.get t k).1 = .error (assertStateErr t.state) ∧
       (Database.get t k).2 = t) ∧
    ((Database.set t k v).1 = .error (assertStateErr t.state) ∧
       (Database.set t k v).2 = t) ∧
    ((Database.insert t k v).1 = .error (assertStateErr t.state) ∧
       (Database.insert t k v).2 = t) ∧
    ((Database.append t k v).1 = .error (assertStateErr t.state) ∧
       (Database.append t k v).2 = t) ∧
    ((Database.append_duplicate t k v).1 = .error (assertStateErr t.state) ∧
       (Database.append_duplicate t k v).2 = t) ∧
    ((Database.del t k).1 = .error (assertStateErr t.state) ∧
       (Database.del t k).2 = t) ∧
    ((Database.del_item t k v).1 = .error (assertStateErr t.state) ∧
       (Database.del_item t k v).2 = t) ∧
    ((Database.del_db t).1 = .error (assertStateErr t.state) ∧
       (Database.del_db t).2 = t) ∧
    ((Database.clear t).1 = .error (assertStateErr t.state) ∧
       (Database.clear t).2 = t) ∧
    ((Database.new_cursor t).1 = .ok Cursor.fresh ∧
       (Database.new_cursor t).2.calls = t.calls + 1) := by
  simp [Database.get, Database.set, Database.insert, Database.append,
        Database.append_duplicate, Database.del, Database.del_item,
        Database.del_db, Database.clear, Database.new_cursor, h]

/-- Witness for `state_gating`: a `Released` transaction over a one-entry
store rejects `get` and leaves the transaction (data and call count)
untouched. -/
theorem state_gating_witness :
    (Database.get ⟨0, TransactionState.Released, false, [(1, [2])], 0⟩ 1).2 =
      (⟨0, TransactionState.Released, false, [(1, [2])], 0⟩ : Txn) :=
  (state_gating ⟨0, TransactionState.Released, false, [(1, [2])], 0⟩ 1 2
    (by decide)).1.2

/-- C5: the `EnvHandle` destructor never closes a live (non-null) engine
environment handle — the source guards the `mdb_env_close` call with
`is_null()` instead of its negation, so at the failing input (any non-null
handle) no close call is issued, while a null handle is "closed" once. -/
theorem env_handle_drop_never_closes :
    EnvHandle.drop_closes ⟨1⟩ = [] ∧ EnvHandle.drop_closes ⟨0⟩ = [0] := by
  decide

/-- The two-key store of the specification's lte-key example. -/
def S1020 : Store := [(10, [1]), (20, [2])]

/-- Result a caller observes from `move_to_lte_key` followed by
`Cursor::get` on a fresh cursor. -/
def lte_key_probe (S : Store) (k : Nat) : MdbResult (Nat × Nat) :=
  match Cursor.fresh.move_to_lte_key S k with
  | (.error e, _) => .error e
  | (.ok _, c) => (c.get S).1

/-- C3: on stored keys {10, 20}, `move_to_lte_key(k)` resolves to the
greatest stored key less than or equal to `k`: not-found below 10, the key
10 between 10 and 19, and the key 20 from 20 on (covering the spec's
targets 5, 15, 20 and 25). -/
theorem move_to_lte_key_on_two_keys (k : Nat) :
    (k < 10 → lte_key_probe S1020 k = .error .NotFound) ∧
    (10 ≤ k → k < 20 → lte_key_probe S1020 k = .ok (10, 1)) ∧
    (20 ≤ k → lte_key_probe S1020 k = .ok (20, 2)) := by
  refine ⟨?_, ?_, ?_⟩
  · intro h
    have h1 : k ≤ 10 := by omega
    simp [lte_key_probe, Cursor.move_to_lte_key, Cursor.move_to_prev_impl,
          Cursor.fresh, mdb_cursor_get, S1020, Store.firstGeIdx, listFindIdx,
          Store.entryAt, Store.dupsAt, mdb_cmp, MDB_SUCCESS, MDB_NOTFOUND,
          EINVAL, MdbError.new_with_code, MDB_KEYEXIST, MDB_TXN_FULL,
          MDB_CURSOR_FULL, MDB_PAGE_FULL, MDB_CORRUPTED, MDB_PANIC,
          Cursor.get, Cursor.get_plain, Cursor.ensure_key_valid, h, h1]
  · intro h h'
    have h1 : 10 ≤ k := h
    have h2 : ¬ k < 10 := by omega
    have h3 : k ≤ 20 := by omega
    by_cases h4 : k ≤ 10
    · have h5 : k = 10 := by omega
      subst h5
      simp [lte_key_probe, Cursor.move_to_lte_key, Cursor.move_to_prev_impl,
            Cursor.fresh, mdb_cursor_get, S1020, Store.firstGeIdx, listFindIdx,
            Store.entryAt, Store.dupsAt, mdb_cmp, MDB_SUCCESS, MDB_NOTFOUND,
            EINVAL, MdbError.new_with_code,
            Cursor.get, Cursor.get_plain, Cursor.ensure_key_valid]
    · simp [lte_key_probe, Cursor.move_to_lte_key, Cursor.move_to_prev_impl,
            Cursor.fresh, mdb_cursor_get, S1020, Store.firstGeIdx, listFindIdx,
            Store.entryAt, Store.dupsAt, mdb_cmp, MDB_SUCCESS, MDB_NOTFOUND,
            EINVAL, MdbError.new_with_code,
            Cursor.get, Cursor.get_plain, Cursor.ensure_key_valid, h2, h3, h4, h']
  · intro h
    have h1 : ¬ k ≤ 10 := by omega
    have h2 : ¬ k < 20 := by omega
    by_cases h3 : k ≤ 20
    · have h4 : k = 20 := by omega
      subst h4
      simp [lte_key_probe, Cursor.move_to_lte_key, Cursor.move_to_prev_impl,
            Cursor.fresh, mdb_cursor_get, S1020, Store.firstGeIdx, listFindIdx,
            Store.entryAt, Store.dupsAt, mdb_cmp, MDB_SUCCESS, MDB_NOTFOUND,
            EINVAL, MdbError.new_with_code,
            Cursor.get, Cursor.get_plain, Cursor.ensure_key_valid]
    · simp [lte_key_probe, Cursor.move_to_lte_key, Cursor.move_to_prev_impl,
            Cursor.fresh, mdb_cursor_get, S1020, Store.firstGeIdx, listFindIdx,
            Store.entryAt, Store.dupsAt, mdb_cmp, MDB_SUCCESS, MDB_NOTFOUND,
            EINVAL, MdbError.new_with_code,
            Cursor.get, Cursor.get_plain, Cursor.ensure_key_valid, h1, h2, h3]

/-- Witness for `move_to_lte_key_on_two_keys` at the spec's four targets. -/
theorem move_to_lte_key_on_two_keys_witness :
    lte_key_probe S1020 5 = .error .NotFound ∧
    lte_key_probe S1020 15 = .ok (10, 1) ∧
    lte_key_probe S1020 20 = .ok (20, 2) ∧
    lte_key_probe S1020 25 = .ok (20, 2) :=
  ⟨(move_to_lte_key_on_two_keys 5).1 (by decide),
   (move_to_lte_key_on_two_keys 15).2.1 (by decide) (by decide),
   (move_to_lte_key_on_two_keys 20).2.2 (by decide),
   (move_to_lte_key_on_two_keys 25).2.2 (by decide)⟩

/-- The duplicate-enabled store of the specification's gte/lte-item example:
key 10 holds {100, 110}, key 20 holds {200, 210}. -/
def Sdup : Store := [(10, [100, 110]), (20, [200, 210])]

/-- Result a caller observes from `move_to_gte_item` followed by
`Cursor::get` on a fresh cursor. -/
def gte_item_probe (S : Store) (k v : Nat) : MdbResult (Nat × Nat) :=
  match Cursor.fresh.move_to_gte_item S k v with
  | (.error e, _) => .error e
  | (.ok _, c) => (c.get S).1

/-- Result a caller observes from `move_to_lte_item` followed by
`Cursor::get` on a fresh cursor. -/
def lte_item_probe (S : Store) (k v : Nat) : MdbResult (Nat × Nat) :=
  match Cursor.fresh.move_to_lte_item S k v with
  | (.error e, _) => .error e
  | (.ok _, c) => (c.get S).1

/-- C8: with duplicates enabled, `move_to_gte_item(10, v)` resolves to the
smallest duplicate of key 10 at least `v` (covering gte(10,99) → 100 and
gte(10,105) → 110), and `move_to_lte_item(20, v)` to the largest duplicate
of key 20 at most `v` (covering lte(20,205) → 200), returning not-found
when `v` is below every duplicate stored under the key. -/
theorem item_searches_on_dup_store (v : Nat) :
    (v ≤ 100 → gte_item_probe Sdup 10 v = .ok (10, 100)) ∧
    (100 < v → v ≤ 110 → gte_item_probe Sdup 10 v = .ok (10, 110)) ∧
    (110 < v → gte_item_probe Sdup 10 v = .error .NotFound) ∧
    (v < 200 → lte_item_probe Sdup 20 v = .error .NotFound) ∧
    (200 ≤ v → v < 210 → lte_item_probe Sdup 20 v = .ok (20, 200)) ∧
    (v = 210 → lte_item_probe Sdup 20 v = .ok (20, 210)) := by
  refine ⟨?_, ?_, ?_, ?_, ?_, ?_⟩
  · intro h
    simp [gte_item_probe, Cursor.move_to_gte_item, Cursor.move_to,
          Cursor.navigate, Cursor.fresh, mdb_cursor_get, Sdup,
          Store.exactIdx, Store.dupsAt, Store.entryAt, listFindIdx,
          mdb_cmp, mdb_dcmp, MDB_SUCCESS, MDB_NOTFOUND, EINVAL,
          MdbError.new_with_code, Cursor.get, Cursor.get_plain,
          Cursor.ensure_key_valid, h]
  · intro h h'
    have h1 : ¬ v ≤ 100 := by omega
    simp [gte_item_probe, Cursor.move_to_gte_item, Cursor.move_to,
          Cursor.navigate, Cursor.fresh, mdb_cursor_get, Sdup,
          Store.exactIdx, Store.dupsAt, Store.entryAt, listFindIdx,
          mdb_cmp, mdb_dcmp, MDB_SUCCESS, MDB_NOTFOUND, EINVAL,
          MdbError.new_with_code, Cursor.get, Cursor.get_plain,
          Cursor.ensure_key_valid, h1, h']
  · intro h
    have h1 : ¬ v ≤ 100 := by omega
    have h2 : ¬ v ≤ 110 := by omega
    simp [gte_item_probe, Cursor.move_to_gte_item, Cursor.move_to,
          Cursor.navigate, Cursor.fresh, mdb_cursor_get, Sdup,
          Store.exactIdx, Store.dupsAt, Store.entryAt, listFindIdx,
          mdb_cmp, mdb_dcmp, MDB_SUCCESS, MDB_NOTFOUND, EINVAL,
          MdbError.new_with_code, Cursor.get, Cursor.get_plain,
          Cursor.ensure_key_valid, h1, h2]
  · intro h
    have h1 : v ≤ 200 := by omega
    simp [lte_item_probe, Cursor.move_to_lte_item, Cursor.lte_item_fallback,
          Cursor.move_to_gte_item, Cursor.move_to, Cursor.navigate,
          Cursor.move_to_prev_item, Cursor.get_value, Cursor.fresh,
          mdb_cursor_get, Sdup, Store.exactIdx, Store.dupsAt, Store.entryAt,
          listFindIdx, mdb_cmp, mdb_dcmp, MDB_SUCCESS, MDB_NOTFOUND, EINVAL,
          MdbError.new_with_code, Cursor.get, Cursor.get_plain,
          Cursor.ensure_key_valid, h, h1]
  · intro h h'
    by_cases h1 : v ≤ 200
    · have h2 : v = 200 := by omega
      subst h2
      decide
    · have h2 : v ≤ 210 := by omega
      have h3 : v < 210 := h'
      simp [lte_item_probe, Cursor.move_to_lte_item, Cursor.lte_item_fallback,
            Cursor.move_to_gte_item, Cursor.move_to, Cursor.navigate,
            Cursor.move_to_prev_item, Cursor.get_value, Cursor.fresh,
            mdb_cursor_get, Sdup, Store.exactIdx, Store.dupsAt, Store.entryAt,
            listFindIdx, mdb_cmp, mdb_dcmp, MDB_SUCCESS, MDB_NOTFOUND, EINVAL,
            MdbError.new_with_code, Cursor.get, Cursor.get_plain,
            Cursor.ensure_key_valid, h1, h2, h3]
  · intro h
    subst h
    decide

/-- Witness for `item_searches_on_dup_store` at the spec's probes:
gte(10,99) → 100, gte(10,105) → 110, lte(20,205) → 200, and
lte(20,199) → not-found. -/
theorem item_searches_on_dup_store_witness :
    gte_item_probe Sdup 10 99 = .ok (10, 100) ∧
    gte_item_probe Sdup 10 105 = .ok (10, 110) ∧
    lte_item_probe Sdup 20 205 = .ok (20, 200) ∧
    lte_item_probe Sdup 20 199 = .error .NotFound :=
  ⟨(item_searches_on_dup_store 99).1 (by decide),
   (item_searches_on_dup_store 105).2.1 (by decide) (by decide),
   (item_searches_on_dup_store 205).2.2.2.2.1 (by decide) (by decide),
   (item_searches_on_dup_store 199).2.2.2.1 (by decide)⟩

/-- The three-key store of the specification's range-iteration example. -/
def S123 : Store := [(1, [11]), (2, [12]), (3, [13])]

/-- C7: over stored keys {1, 2, 3}, `keyrange_to(3)` yields exactly the keys
strictly below 3, `keyrange_from(2)` yields 2 and everything above, the
inclusive `keyrange(2, 3)` yields both 2 and 3, and every range request
whose bounds put no stored key in range (for any of the four range policies)
yields zero elements. -/
theorem range_iteration_on_three_keys (s e : Nat) :
    ((Database.keyrange_to S123 3).run S123 4 = [(1, 11), (2, 12)]) ∧
    ((Database.keyrange_from S123 2).run S123 4 = [(2, 12), (3, 13)]) ∧
    ((Database.keyrange S123 2 3).run S123 4 = [(2, 12), (3, 13)]) ∧
    (e ≤ 1 → (Database.keyrange_to S123 e).run S123 4 = []) ∧
    (3 < s → (Database.keyrange_from S123 s).run S123 4 = []) ∧
    ((∀ k, k ∈ ([1, 2, 3] : List Nat) → ¬ (s ≤ k ∧ k ≤ e)) →
       (Database.keyrange S123 s e).run S123 4 = []) ∧
    ((∀ k, k ∈ ([1, 2, 3] : List Nat) → ¬ (s ≤ k ∧ k < e)) →
       (Database.keyrange_from_to S123 s e).run S123 4 = []) := by
  refine ⟨by decide, by decide, by decide, ?_, ?_, ?_, ?_⟩
  · intro h
    have h1 : ¬ (1 : Nat) < e := by omega
    by_cases h2 : e < 1
    · simp [Database.keyrange_to, CursorIterator.wrap, CursorIterator.run,
            CursorIterator.next, instIterToKey, Cursor.move_to_first,
            Cursor.navigate, Cursor.fresh, mdb_cursor_get, S123,
            Store.entryAt, Store.dupsAt, Cursor.cmp_key, Cursor.get_plain,
            Cursor.ensure_key_valid, mdb_cmp, MdbResult.is_ok,
            MdbResult.is_less, Ordering.is_less, MDB_SUCCESS, MDB_NOTFOUND,
            EINVAL, h1, h2]
    · have h3 : e = 1 := by omega
      subst h3
      decide
  · intro h
    have h1 : ¬ s ≤ 1 := by omega
    have h2 : ¬ s ≤ 2 := by omega
    have h3 : ¬ s ≤ 3 := by omega
    simp [Database.keyrange_from, CursorIterator.wrap, CursorIterator.run,
          CursorIterator.next, instIterFromKey, Cursor.move_to_gte_key,
          Cursor.move_to, Cursor.navigate, Cursor.fresh, mdb_cursor_get,
          S123, Store.firstGeIdx, listFindIdx, MdbResult.is_ok,
          MDB_SUCCESS, MDB_NOTFOUND, EINVAL, h1, h2, h3]
  · intro h
    by_cases h1 : s ≤ 1
    · have h2 : ¬ (1 : Nat) ≤ e := fun he => h 1 (by decide) ⟨h1, he⟩
      have h3 : e = 0 := by omega
      subst h3
      simp [Database.keyrange, CursorIterator.wrap, CursorIterator.run,
            CursorIterator.next, instIterKeyRange, Cursor.move_to_gte_key,
            Cursor.move_to, Cursor.navigate, Cursor.fresh, mdb_cursor_get,
            S123, Store.firstGeIdx, listFindIdx, Store.entryAt, Store.dupsAt,
            Cursor.cmp_key, Cursor.get_plain, Cursor.ensure_key_valid,
            mdb_cmp, MdbResult.is_ok, MdbResult.is_less, Ordering.is_less,
            MDB_SUCCESS, MDB_NOTFOUND, EINVAL, h1]
    · by_cases h2 : s ≤ 2
      · have h3 : ¬ (2 : Nat) ≤ e := fun he => h 2 (by decide) ⟨h2, he⟩
        have h4 : ¬ (2 : Nat) < e := by omega
        have h5 : e < 2 := by omega
        simp [Database.keyrange, CursorIterator.wrap, CursorIterator.run,
              CursorIterator.next, instIterKeyRange, Cursor.move_to_gte_key,
              Cursor.move_to, Cursor.navigate, Cursor.fresh, mdb_cursor_get,
              S123, Store.firstGeIdx, listFindIdx, Store.entryAt, Store.dupsAt,
              Cursor.cmp_key, Cursor.get_plain, Cursor.ensure_key_valid,
              mdb_cmp, MdbResult.is_ok, MdbResult.is_less, Ordering.is_less,
              MDB_SUCCESS, MDB_NOTFOUND, EINVAL, h1, h2, h4, h5]
      · by_cases h3 : s ≤ 3
        · have h4 : ¬ (3 : Nat) ≤ e := fun he => h 3 (by decide) ⟨h3, he⟩
          have h5 : ¬ (3 : Nat) < e := by omega
          have h6 : e < 3 := by omega
          simp [Database.keyrange, CursorIterator.wrap, CursorIterator.run,
                CursorIterator.next, instIterKeyRange, Cursor.move_to_gte_key,
                Cursor.move_to, Cursor.navigate, Cursor.fresh, mdb_cursor_get,
                S123, Store.firstGeIdx, listFindIdx, Store.entryAt, Store.dupsAt,
                Cursor.cmp_key, Cursor.get_plain, Cursor.ensure_key_valid,
                mdb_cmp, MdbResult.is_ok, MdbResult.is_less, Ordering.is_less,
                MDB_SUCCESS, MDB_NOTFOUND, EINVAL, h1, h2, h3, h5, h6]
        · simp [Database.keyrange, CursorIterator.wrap, CursorIterator.run,
                CursorIterator.next, instIterKeyRange, Cursor.move_to_gte_key,
                Cursor.move_to, Cursor.navigate, Cursor.fresh, mdb_cursor_get,
                S123, Store.firstGeIdx, listFindIdx, MdbResult.is_ok,
                MDB_SUCCESS, MDB_NOTFOUND, EINVAL, h1, h2, h3]
  · intro h
    by_cases h1 : s ≤ 1
    · have h2 : ¬ (1 : Nat) < e := fun he => h 1 (by decide) ⟨h1, he⟩
      by_cases h3 : e < 1
      · simp [Database.keyrange_from_to, CursorIterator.wrap,
              CursorIterator.run, CursorIterator.next, instIterKeyRange,
              Cursor.move_to_gte_key, Cursor.move_to, Cursor.navigate,
              Cursor.fresh, mdb_cursor_get, S123, Store.firstGeIdx,
              listFindIdx, Store.entryAt, Store.dupsAt, Cursor.cmp_key,
              Cursor.get_plain, Cursor.ensure_key_valid, mdb_cmp,
              MdbResult.is_ok, MdbResult.is_less, Ordering.is_less,
              MDB_SUCCESS, MDB_NOTFOUND, EINVAL, h1, h2, h3]
      · have h4 : e = 1 := by omega
        subst h4
        simp [Database.keyrange_from_to, CursorIterator.wrap,
              CursorIterator.run, CursorIterator.next, instIterKeyRange,
              Cursor.move_to_gte_key, Cursor.move_to, Cursor.navigate,
              Cursor.fresh, mdb_cursor_get, S123, Store.firstGeIdx,
              listFindIdx, Store.entryAt, Store.dupsAt, Cursor.cmp_key,
              Cursor.get_plain, Cursor.ensure_key_valid, mdb_cmp,
              MdbResult.is_ok, MdbResult.is_less, Ordering.is_less,
              MDB_SUCCESS, MDB_NOTFOUND, EINVAL, h1]
    · by_cases h2 : s ≤ 2
      · have h3 : ¬ (2 : Nat) < e := fun he => h 2 (by decide) ⟨h2, he⟩
        by_cases h4 : e < 2
        · simp [Database.keyrange_from_to, CursorIterator.wrap,
                CursorIterator.run, CursorIterator.next, instIterKeyRange,
                Cursor.move_to_gte_key, Cursor.move_to, Cursor.navigate,
                Cursor.fresh, mdb_cursor_get, S123, Store.firstGeIdx,
                listFindIdx, Store.entryAt, Store.dupsAt, Cursor.cmp_key,
                Cursor.get_plain, Cursor.ensure_key_valid, mdb_cmp,
                MdbResult.is_ok, MdbResult.is_less, Ordering.is_less,
                MDB_SUCCESS, MDB_NOTFOUND, EINVAL, h1, h2, h3, h4]
        · have h5 : e = 2 := by omega
          subst h5
          simp [Database.keyrange_from_to, CursorIterator.wrap,
                CursorIterator.run, CursorIterator.next, instIterKeyRange,
                Cursor.move_to_gte_key, Cursor.move_to, Cursor.navigate,
                Cursor.fresh, mdb_cursor_get, S123, Store.firstGeIdx,
                listFindIdx, Store.entryAt, Store.dupsAt, Cursor.cmp_key,
                Cursor.get_plain, Cursor.ensure_key_valid, mdb_cmp,
                MdbResult.is_ok, MdbResult.is_less, Ordering.is_less,
                MDB_SUCCESS, MDB_NOTFOUND, EINVAL, h1, h2]
      · by_cases h3 : s ≤ 3
        · have h4 : ¬ (3 : Nat) < e := fun he => h 3 (by decide) ⟨h3, he⟩
          by_cases h5 : e < 3
          · simp [Database.keyrange_from_to, CursorIterator.wrap,
                  CursorIterator.run, CursorIterator.next, instIterKeyRange,
                  Cursor.move_to_gte_key, Cursor.move_to, Cursor.navigate,
                  Cursor.fresh, mdb_cursor_get, S123, Store.firstGeIdx,
                  listFindIdx, Store.entryAt, Store.dupsAt, Cursor.cmp_key,
                  Cursor.get_plain, Cursor.ensure_key_valid, mdb_cmp,
                  MdbResult.is_ok, MdbResult.is_less, Ordering.is_less,
                  MDB_SUCCESS, MDB_NOTFOUND, EINVAL, h1, h2, h3, h4, h5]
          · have h6 : e = 3 := by omega
            subst h6
            simp [Database.keyrange_from_to, CursorIterator.wrap,
                  CursorIterator.run, CursorIterator.next, instIterKeyRange,
                  Cursor.move_to_gte_key, Cursor.move_to, Cursor.navigate,
                  Cursor.fresh, mdb_cursor_get, S123, Store.firstGeIdx,
                  listFindIdx, Store.entryAt, Store.dupsAt, Cursor.cmp_key,
                  Cursor.get_plain, Cursor.ensure_key_valid, mdb_cmp,
                  MdbResult.is_ok, MdbResult.is_less, Ordering.is_less,
                  MDB_SUCCESS, MDB_NOTFOUND, EINVAL, h1, h2, h3]
        · simp [Database.keyrange_from_to, CursorIterator.wrap,
                CursorIterator.run, CursorIterator.next, instIterKeyRange,
                Cursor.move_to_gte_key, Cursor.move_to, Cursor.navigate,
                Cursor.fresh, mdb_cursor_get, S123, Store.firstGeIdx,
                listFindIdx, MdbResult.is_ok, MDB_SUCCESS, MDB_NOTFOUND,
                EINVAL, h1, h2, h3]

/-- Witness for `range_iteration_on_three_keys`: the empty-range requests
`to(1)`, `from(4)`, `range([4,7])` and `range([4,7))` all yield nothing. -/
theorem range_iteration_on_three_keys_witness :
    (Database.keyrange_to S123 1).run S123 4 = [] ∧
    (Database.keyrange_from S123 4).run S123 4 = [] ∧
    (Database.keyrange S123 4 7).run S123 4 = [] ∧
    (Database.keyrange_from_to S123 4 7).run S123 4 = [] :=
  ⟨(range_iteration_on_three_keys 0 1).2.2.2.1 (by decide),
   (range_iteration_on_three_keys 4 0).2.2.2.2.1 (by decide),
   (range_iteration_on_three_keys 4 7).2.2.2.2.2.1 (by decide),
   (range_iteration_on_three_keys 4 7).2.2.2.2.2.2 (by decide)⟩

/-- Reading a key straight after a non-duplicate `mdb_put` of that key
returns the written value, whatever the prior contents. -/
theorem storeGet_storePut (S : Store) (k v : Nat) :
    storeGet (storePut false S k v) k = .ok v := by
  induction S with
  | nil => simp [storePut, storeGet]
  | cons hd tl ih =>
      obtain ⟨k', vs⟩ := hd
      by_cases h1 : k < k'
      · simp [storePut, storeGet, h1]
      · by_cases h2 : k = k'
        · subst h2
          simp [storePut, storeGet, h1]
        · have h3 : ¬ k' = k := fun hh => h2 hh.symm
          simpa [storePut, storeGet, h1, h2, h3] using ih

/-- C4 (amended to databases without duplicate keys): writing (k, v) with
`set` under a fresh `Normal` read-write transaction succeeds, committing it
succeeds, and a `get` of k under a subsequently created read transaction
returns exactly v, for every prior committed store. -/
theorem write_commit_read_roundtrip (committed : Store) (k v : Nat) :
    ((Database.set (Environment.new_transaction false committed) k v).1 =
       .ok ()) ∧
    ((Txn.commit
        (Database.set (Environment.new_transaction false committed) k v).2
        committed).1 = .ok ()) ∧
    ((Database.get
        (Environment.get_reader false
          (Txn.commit
            (Database.set (Environment.new_transaction false committed) k v).2
            committed).2.2)
        k).1 = .ok v) := by
  refine ⟨?_, ?_, ?_⟩ <;>
    simp [Database.set, Database.get, Environment.new_transaction,
          Environment.get_reader, Txn.commit, Txn.is_readonly, MDB_RDONLY,
          storeGet_storePut]

/-- C4 counterexample: under a duplicate-allowed database already holding
value 1 for key 1, writing value 5 with `set` and committing makes a
subsequent read transaction's `get` return 1 — the sorted-first duplicate —
not the written value 5: `set` adds a duplicate and `get` returns the one
the comparator sorts foremost. -/
theorem write_commit_read_dup_counterexample :
    ((Database.set (Environment.new_transaction true [(1, [1])]) 1 5).1 =
       .ok ()) ∧
    ((Txn.commit
        (Database.set (Environment.new_transaction true [(1, [1])]) 1 5).2
        [(1, [1])]).1 = .ok ()) ∧
    ((Database.get
        (Environment.get_reader true
          (Txn.commit
            (Database.set (Environment.new_transaction true [(1, [1])]) 1 5).2
            [(1, [1])]).2.2)
        1).1 = .ok 1) ∧
    (1 : Nat) ≠ 5 := by
  decide

/-- C6 (amended): every non-success engine status code surfaced through
`try_mdb!`/`lift_mdb!` is mapped into the taxonomy and returned — an
unrecognized code becomes `Other(code, message)`, never a silent default;
drop-time aborts (`silent_abort`) only advance the state and propagate no
error; errors arising while a range iterator fetches, however, are not
returned to the caller: `next` maps them to `None`, silently ending the
iteration. -/
theorem engine_error_mapping (code : Int) (t : NativeTransaction)
    (S : Store) (it : CursorIterator CursorToKeyIter)
    (h : code ≠ MDB_SUCCESS) :
    (lift_mdb code = .error (MdbError.new_with_code code)) ∧
    (code ∉ ([MDB_NOTFOUND, MDB_KEYEXIST, MDB_TXN_FULL, MDB_CURSOR_FULL,
              MDB_PAGE_FULL, MDB_CORRUPTED, MDB_PANIC] : List Int) →
       MdbError.new_with_code code = .Other code (error_msg code)) ∧
    (t.silent_abort = t ∨ t.silent_abort.state = TransactionState.Invalid) ∧
    ((it.cursor.get_plain S).1.is_ok = false → (it.next S).1 = none) := by
  refine ⟨?_, ?_, ?_, ?_⟩
  · simp [lift_mdb, h]
  · intro hm
    simp only [List.mem_cons, List.mem_singleton, not_or] at hm
    obtain ⟨m1, m2, m3, m4, m5, m6, m7, _⟩ := hm
    simp [MdbError.new_with_code, m1, m2, m3, m4, m5, m6, m7]
  · by_cases ht : t.state = TransactionState.Normal
    · right
      simp [NativeTransaction.silent_abort, ht]
    · left
      simp [NativeTransaction.silent_abort, ht]
  · intro hg
    rcases hres : it.cursor.get_plain S with ⟨r, c'⟩
    cases r with
    | ok val =>
        rw [hres] at hg
        simp [MdbResult.is_ok] at hg
    | error err =>
        unfold CursorIterator.next
        rw [hres]
        by_cases hd : it.has_data <;> simp [hd]

/-- Witness for `engine_error_mapping` at the unrecognized code −1 and an
iterator state whose fetch fails. -/
theorem engine_error_mapping_witness :
    lift_mdb (-1) = .error (MdbError.new_with_code (-1)) ∧
    ((⟨⟨3⟩, true, Cursor.fresh⟩ : CursorIterator CursorToKeyIter).next S123).1 =
      none :=
  ⟨(engine_error_mapping (-1) ⟨0, .Normal⟩ []
      ⟨⟨0⟩, false, Cursor.fresh⟩ (by decide)).1,
   (engine_error_mapping (-1) ⟨0, .Normal⟩ S123
      ⟨⟨3⟩, true, Cursor.fresh⟩ (by decide)).2.2.2 (by decide)⟩

/-- C6 counterexample: at a concrete iterator state whose `get_plain` fetch
reports an engine error, `next` returns `None` — the error is hidden from
the caller, not returned. -/
theorem iterator_error_swallowed :
    ((⟨⟨3⟩, true, Cursor.fresh⟩ : CursorIterator CursorToKeyIter).next S123).1 =
      none ∧
    (Cursor.fresh.get_plain S123).1 =
      .error (.Other EINVAL (error_msg EINVAL)) := by
  decide

/-- A search that fails on a list continues into an appended tail. -/
theorem find?_append_none {α : Type} (p : α → Bool) (l1 l2 : List α)
    (h : l1.find? p = none) : (l1 ++ l2).find? p = l2.find? p := by
  induction l1 with
  | nil => simp
  | cons a l ih =>
      by_cases hp : p a
      · rw [List.find?_cons_of_pos _ hp] at h
        exact absurd h (by simp)
      · rw [List.cons_append, List.find?_cons_of_neg _ hp]
        rw [List.find?_cons_of_neg _ hp] at h
        exact ih h

/-- C9: a successful first `_open_db` call inserts the handle into the cache
(under the lock, only after the open-transaction-commit sequence succeeded);
a second call for the same name returns the very same handle and leaves the
whole environment — engine open-call count included — untouched; the cache
keeps at most one entry per name; a failing commit inserts nothing; and a
poisoned lock yields `CacheError` without reaching the engine. -/
theorem open_db_cache_behavior (env : Environment) (name : String) (code : Int) :
    (∀ db env1, Environment._open_db env name true 0 = (.ok db, env1) →
       Environment._open_db env1 name true code = (.ok db, env1)) ∧
    ((env.db_cache.map Prod.fst).Nodup →
       ((Environment._open_db env name true code).2.db_cache.map Prod.fst).Nodup) ∧
    (code ≠ 0 →
       (Environment._open_db env name true code).2.db_cache = env.db_cache) ∧
    (Environment._open_db env name false code = (.error .CacheError, env)) := by
  refine ⟨?_, ?_, ?_, ?_⟩
  · intro db env1 hfirst
    rcases hfind : env.db_cache.find? (fun p => p.1 = name) with _ | p
    · rcases hopen : env.eng.mdb_dbi_open name with ⟨db0, eng0⟩
      simp [Environment._open_db, hfind, hopen, NativeTransaction.commit,
            lift_mdb, MDB_SUCCESS] at hfirst
      obtain ⟨hdb, henv⟩ := hfirst
      subst hdb
      subst henv
      have hsearch :
          (env.db_cache ++ [(name, db0)]).find? (fun p => p.1 = name) =
            some (name, db0) := by
        rw [find?_append_none _ _ _ hfind]
        simp [List.find?]
      simp [Environment._open_db, hsearch]
    · simp [Environment._open_db, hfind] at hfirst
      obtain ⟨hdb, henv⟩ := hfirst
      subst hdb
      subst henv
      simp [Environment._open_db, hfind]
  · intro hnd
    rcases hfind : env.db_cache.find? (fun p => p.1 = name) with _ | p
    · rcases hopen : env.eng.mdb_dbi_open name with ⟨db0, eng0⟩
      by_cases hc : code = 0
      · subst hc
        simp [Environment._open_db, hfind, hopen, NativeTransaction.commit,
              lift_mdb, MDB_SUCCESS]
        have hnot : name ∉ env.db_cache.map Prod.fst := by
          intro hmem
          obtain ⟨q, hq, hq1⟩ := List.mem_map.mp hmem
          have := List.find?_eq_none.mp hfind q hq
          simp [hq1] at this
        refine List.Nodup.append hnd (List.nodup_singleton _) ?_
        intro x hx1 hx2
        simp at hx2
        subst hx2
        exact hnot hx1
      · have hlift : lift_mdb code = .error (MdbError.new_with_code code) := by
          simp [lift_mdb, MDB_SUCCESS, hc]
        simp [Environment._open_db, hfind, hopen, NativeTransaction.commit,
              hlift]
        exact hnd
    · simp [Environment._open_db, hfind]
      exact hnd
  · intro hc
    rcases hfind : env.db_cache.find? (fun p => p.1 = name) with _ | p
    · rcases hopen : env.eng.mdb_dbi_open name with ⟨db0, eng0⟩
      have hlift : lift_mdb code = .error (MdbError.new_with_code code) := by
        simp [lift_mdb, MDB_SUCCESS, hc]
      simp [Environment._open_db, hfind, hopen, NativeTransaction.commit,
            hlift]
    · simp [Environment._open_db, hfind]
  · simp [Environment._open_db]

/-- Witness for `open_db_cache_behavior`: opening "a" on an empty cache
yields handle 1 and caches it; re-opening "a" (even alongside a failing
commit code) returns handle 1 with the environment unchanged. -/
theorem open_db_cache_behavior_witness :
    Environment._open_db ⟨[("a", 1)], ⟨[("a", 1)], 2, 1⟩⟩ "a" true 7 =
      (.ok 1, ⟨[("a", 1)], ⟨[("a", 1)], 2, 1⟩⟩) :=
  (open_db_cache_behavior ⟨[], ⟨[], 1, 0⟩⟩ "a" 7).1 1
    ⟨[("a", 1)], ⟨[("a", 1)], 2, 1⟩⟩ (by decide)

/-- C10: `navigate` resets both validity flags before the engine call — on
engine failure both remain false — and on success sets them by operation:
the `SET` class leaves `valid_key` false, the `GET_BOTH_RANGE` class leaves
`valid_value` false, every other navigation sets both; and whenever a flag
is false, the next read re-fetches that component from the engine's current
entry instead of trusting the stored buffer (the buffers `c.key_val` and
`c.data_val` are arbitrary here). -/
theorem cursor_validity_flags (S : Store) (c : Cursor) (op : MDB_cursor_op)
    (ki vi k v : Nat) :
    ((c.navigate S op).1.is_ok = false →
       ((c.navigate S op).2.valid_key = false ∧
        (c.navigate S op).2.valid_value = false)) ∧
    ((c.navigate S op).1.is_ok = true →
       ((c.navigate S op).2.valid_key = (op != MDB_cursor_op.SET) ∧
        (c.navigate S op).2.valid_value =
          (op != MDB_cursor_op.GET_BOTH_RANGE))) ∧
    (c.pos = CurPos.item ki vi → S.entryAt ki vi = some (k, v) →
       (c.valid_key = false → c.valid_value = false →
          (c.get_plain S).1 = .ok (⟨Prov.engine, k⟩, ⟨Prov.engine, v⟩)) ∧
       (c.valid_key = false → c.valid_value = true →
          (c.get_plain S).1 = .ok (⟨Prov.engine, k⟩, c.data_val)) ∧
       (c.valid_key = true → c.valid_value = false →
          (c.get_plain S).1 = .ok (c.key_val, ⟨Prov.engine, v⟩))) := by
  refine ⟨?_, ?_, ?_⟩
  · intro hfail
    by_cases hrc :
        (mdb_cursor_get S c.pos c.key_val c.data_val op).rc = MDB_SUCCESS
    · simp [Cursor.navigate, hrc, MdbResult.is_ok] at hfail
    · simp [Cursor.navigate, hrc]
  · intro hok
    by_cases hrc :
        (mdb_cursor_get S c.pos c.key_val c.data_val op).rc = MDB_SUCCESS
    · simp [Cursor.navigate, hrc]
    · simp [Cursor.navigate, hrc, MdbResult.is_ok] at hok
  · intro hpos hent
    refine ⟨?_, ?_, ?_⟩ <;> intro hk hv <;>
      simp [Cursor.get_plain, Cursor.ensure_key_valid, mdb_cursor_get,
            hpos, hent, hk, hv, MDB_SUCCESS, EINVAL]

/-- Witness for `cursor_validity_flags`: with both flags down and buffers
holding stale caller bytes (9), reading through `get_plain` over the store
[(1, [2])] returns the engine-owned entry (1, 2); and a failed `FIRST` on
the empty store leaves both flags false. -/
theorem cursor_validity_flags_witness :
    ((Cursor.mk (CurPos.item 0 0) ⟨Prov.user, 9⟩ ⟨Prov.user, 9⟩ false
        false).get_plain [(1, [2])]).1 =
      .ok (⟨Prov.engine, 1⟩, ⟨Prov.engine, 2⟩) ∧
    (Cursor.fresh.navigate [] MDB_cursor_op.FIRST).2.valid_key = false :=
  ⟨((cursor_validity_flags [(1, [2])]
      (Cursor.mk (CurPos.item 0 0) ⟨Prov.user, 9⟩ ⟨Prov.user, 9⟩ false false)
      MDB_cursor_op.FIRST 0 0 1 2).2.2 rfl (by decide)).1 rfl rfl,
   ((cursor_validity_flags [] Cursor.fresh MDB_cursor_op.FIRST 0 0 1 2).1
      (by decide)).1⟩
